import Mathlib

/-!
Verification of the odoo-ls semantic-analysis engine specification against the
repository's sources.  The analyzers themselves (call-binding validator, domain
diagnostics, entity registry) ship outside `src/`; only their expected-diagnostic
test data (`src/server/tests/data/...`) and the hover feature (`src/server/features/hover.py`)
are present.  Where an analyzer is absent we model it from the specification
(§4.4, §4.5), constrained to reproduce the expected-diagnostic annotations of the
test data, which are translated below verbatim.
-/

namespace OdooLS

/-! ## Call-binding validator (spec §4.4)

Modelled from the spec: the call-binding validator `check(callSite, signature)`
is not under `src/`; its behaviour is specified in §4.4 and evidenced by the
expected-diagnostic annotations of
`src/server/tests/data/python/diagnostics/ols01007.py` and `ols01010.py`.
Parameters are classified into the five Python parameter kinds; positional
arguments fill positional-only then positional-or-keyword slots (spilling into
a variadic-positional slot when present, else "too many positional arguments");
keyword arguments fill positional-or-keyword / keyword-only slots not already
filled (spilling into a variadic-keyword slot when present, else "unexpected
keyword argument"); afterwards every defaultless unfilled slot is "missing
required argument"; a keyword naming a positional-only slot is its own flag;
a positional argument after a keyword argument is a syntax-level flag. -/

inductive ParamKind where
  | posOnly
  | posOrKw
  | varPos
  | kwOnly
  | varKw
deriving DecidableEq, Repr

def ParamKind.isPositionalSlot : ParamKind → Bool
  | .posOnly => true
  | .posOrKw => true
  | _ => false

structure Param where
  name : String
  kind : ParamKind
  hasDefault : Bool
deriving DecidableEq, Repr

/-- A call-site argument: only the positional/keyword shape matters to binding. -/
inductive Arg where
  | pos
  | kw (name : String)
deriving DecidableEq, Repr

inductive BindDiag where
  | missingRequired (slot : String)
  | tooManyPositional
  | unexpectedKeyword (arg : String)
  | posOnlyPassedByKeyword (slot : String)
  | posAfterKeyword
deriving DecidableEq, Repr

def Arg.isPos : Arg → Bool
  | .pos => true
  | .kw _ => false

def numPosArgs (call : List Arg) : Nat :=
  (call.filter Arg.isPos).length

def kwArgNames (call : List Arg) : List String :=
  call.filterMap fun a => match a with
    | .pos => none
    | .kw nm => some nm

/-- Names of the positional-only parameters of a signature. -/
def posOnlyNames (sig : List Param) : List String :=
  (sig.filter fun p => p.kind = ParamKind.posOnly).map Param.name

/-- Names of the parameters a keyword argument may legitimately bind to
(positional-or-keyword and keyword-only slots). -/
def keywordBindableNames (sig : List Param) : List String :=
  (sig.filter fun p => p.kind = ParamKind.posOrKw ∨ p.kind = ParamKind.kwOnly).map Param.name

/-- One step of the keyword-consumption pass: state is (filled slot names,
diagnostics so far); `nm` is the next keyword argument's name. -/
def kwStep (sig : List Param) (st : List String × List BindDiag) (nm : String) :
    List String × List BindDiag :=
  if nm ∈ keywordBindableNames sig ∧ nm ∉ st.1 then
    (nm :: st.1, st.2)
  else if nm ∈ posOnlyNames sig then
    (st.1, st.2 ++ [BindDiag.posOnlyPassedByKeyword nm])
  else if sig.any fun p => p.kind = ParamKind.varKw then
    st
  else
    (st.1, st.2 ++ [BindDiag.unexpectedKeyword nm])

def positionalSlots (sig : List Param) : List Param :=
  sig.filter fun p => p.kind.isPositionalSlot

/-- Slot names filled by the left-to-right positional pass. -/
def initialFilled (sig : List Param) (call : List Arg) : List String :=
  ((positionalSlots sig).take (numPosArgs call)).map Param.name

/-- Result of the keyword pass: (filled slot names, keyword diagnostics). -/
def kwFoldResult (sig : List Param) (call : List Arg) :
    List String × List BindDiag :=
  (kwArgNames call).foldl (kwStep sig) (initialFilled sig call, [])

def tooManyDiags (sig : List Param) (call : List Arg) : List BindDiag :=
  if numPosArgs call > (positionalSlots sig).length ∧
      ¬ sig.any (fun p => p.kind = ParamKind.varPos) then
    [BindDiag.tooManyPositional]
  else []

/-- After both passes, every defaultless positional-only / positional-or-keyword /
keyword-only slot without a value is a missing required argument. -/
def missingDiags (sig : List Param) (filled : List String) : List BindDiag :=
  ((sig.filter fun p =>
      (p.kind.isPositionalSlot || p.kind = ParamKind.kwOnly) ∧ ¬ p.hasDefault).filter
    fun p => p.name ∉ filled).map fun p => BindDiag.missingRequired p.name

/-- The signature-binding pass of the validator (spec §4.4), syntax-level
positional-after-keyword check excluded. -/
def bindCheck (sig : List Param) (call : List Arg) : List BindDiag :=
  tooManyDiags sig call ++ (kwFoldResult sig call).2 ++
    missingDiags sig (kwFoldResult sig call).1

/-- A positional argument appears after some keyword argument. -/
def hasPosAfterKeyword : List Arg → Bool
  | [] => false
  | Arg.pos :: rest => hasPosAfterKeyword rest
  | Arg.kw _ :: rest => rest.any Arg.isPos || hasPosAfterKeyword rest

/-- Full validator: the syntax-level positional-after-keyword flag is emitted
independently of (and in addition to) signature binding (spec §4.4, §9). -/
def fullCheck (sig : List Param) (call : List Arg) : List BindDiag :=
  (if hasPosAfterKeyword call then [BindDiag.posAfterKeyword] else []) ++ bindCheck sig call

/-! Signatures translated from the test data. -/

/-- `def d(x, y=0)` — ols01007.py line 20. -/
def sigD : List Param :=
  [⟨"x", ParamKind.posOrKw, false⟩, ⟨"y", ParamKind.posOrKw, true⟩]

/-- `def a(*, x)` — ols01010.py line 1. -/
def sigAKw : List Param :=
  [⟨"x", ParamKind.kwOnly, false⟩]

/-- `def j(x, y, /)` — ols01007.py line 70. -/
def sigJ : List Param :=
  [⟨"x", ParamKind.posOnly, false⟩, ⟨"y", ParamKind.posOnly, false⟩]

/-- `def q(a, b, *, x, y=10)` — ols01007.py line 135. -/
def sigQ : List Param :=
  [⟨"a", ParamKind.posOrKw, false⟩, ⟨"b", ParamKind.posOrKw, false⟩,
   ⟨"x", ParamKind.kwOnly, false⟩, ⟨"y", ParamKind.kwOnly, true⟩]

/-- `def o(a, b=1, *args, c, d=0)` — ols01007.py line 116. -/
def sigO : List Param :=
  [⟨"a", ParamKind.posOrKw, false⟩, ⟨"b", ParamKind.posOrKw, true⟩,
   ⟨"args", ParamKind.varPos, false⟩,
   ⟨"c", ParamKind.kwOnly, false⟩, ⟨"d", ParamKind.kwOnly, true⟩]

/-- C1: on `(x, y=0)`: `d()` reports missing-required for `x`; `d(5)` and
`d(5,6)` bind cleanly; `d(5,6,7)` reports too-many-positional.  On `(*, x)`:
`a()` reports missing-required for `x`; `a(x=5)` binds cleanly; `a(y=5)`
reports both unexpected-keyword `y` and missing-required `x`. -/
theorem call_binding_d_and_a_kw :
    bindCheck sigD [] = [BindDiag.missingRequired "x"] ∧
    bindCheck sigD [Arg.pos] = [] ∧
    bindCheck sigD [Arg.pos, Arg.pos] = [] ∧
    bindCheck sigD [Arg.pos, Arg.pos, Arg.pos] = [BindDiag.tooManyPositional] ∧
    bindCheck sigAKw [] = [BindDiag.missingRequired "x"] ∧
    bindCheck sigAKw [Arg.kw "x"] = [] ∧
    BindDiag.unexpectedKeyword "y" ∈ bindCheck sigAKw [Arg.kw "y"] ∧
    BindDiag.missingRequired "x" ∈ bindCheck sigAKw [Arg.kw "y"] := by
  decide

theorem kwStep_diags_mono (sig : List Param) (st : List String × List BindDiag)
    (nm : String) (d : BindDiag) (hd : d ∈ st.2) : d ∈ (kwStep sig st nm).2 := by
  unfold kwStep
  split
  · exact hd
  · split
    · simpa using Or.inl hd
    · split
      · exact hd
      · simpa using Or.inl hd

theorem kwFold_diags_mono (sig : List Param) (l : List String)
    (st : List String × List BindDiag) (d : BindDiag) (hd : d ∈ st.2) :
    d ∈ (l.foldl (kwStep sig) st).2 := by
  induction l generalizing st with
  | nil => simpa using hd
  | cons a tl ih => exact ih _ (kwStep_diags_mono sig st a d hd)

/-- A keyword argument whose name is a positional-only slot (and not also a
keyword-bindable slot) is flagged by the keyword pass wherever it occurs. -/
theorem kwFold_posOnly_flag (sig : List Param) (nm : String)
    (hkb : nm ∉ keywordBindableNames sig) (hpo : nm ∈ posOnlyNames sig) :
    ∀ (l : List String) (st : List String × List BindDiag), nm ∈ l →
      BindDiag.posOnlyPassedByKeyword nm ∈ (l.foldl (kwStep sig) st).2 := by
  intro l
  induction l with
  | nil => intro st h; cases h
  | cons a tl ih =>
    intro st h
    rcases List.mem_cons.mp h with h | h
    · subst h
      simp only [List.foldl_cons]
      apply kwFold_diags_mono
      unfold kwStep
      rw [if_neg fun hcon => hkb hcon.1, if_pos hpo]
      simp
    · exact ih (kwStep sig st a) h

/-- C4: a keyword argument naming a positional-only slot is flagged with the
dedicated positional-only-passed-by-keyword diagnostic, which is distinct from
the generic too-many-positional and missing-required binding diagnostics. -/
theorem posonly_param_by_keyword_distinct (sig : List Param) (call : List Arg)
    (nm : String)
    (h1 : ∃ p ∈ sig, p.kind = ParamKind.posOnly ∧ p.name = nm)
    (h2 : ∀ p ∈ sig, p.name = nm → p.kind = ParamKind.posOnly)
    (hc : Arg.kw nm ∈ call) :
    BindDiag.posOnlyPassedByKeyword nm ∈ bindCheck sig call ∧
    (∀ s, BindDiag.posOnlyPassedByKeyword nm ≠ BindDiag.missingRequired s) ∧
    BindDiag.posOnlyPassedByKeyword nm ≠ BindDiag.tooManyPositional := by
  refine ⟨?_, fun s => by simp, by simp⟩
  have hpo : nm ∈ posOnlyNames sig := by
    obtain ⟨p, hp, hk, hn⟩ := h1
    exact List.mem_map.mpr ⟨p, List.mem_filter.mpr ⟨hp, by simp [hk]⟩, hn⟩
  have hkb : nm ∉ keywordBindableNames sig := by
    intro hmem
    obtain ⟨p, hpf, hn⟩ := List.mem_map.mp hmem
    have := List.mem_filter.mp hpf
    have hkind := h2 p this.1 hn
    have : p.kind = ParamKind.posOrKw ∨ p.kind = ParamKind.kwOnly := by
      simpa using this.2
    rcases this with h | h <;> rw [hkind] at h <;> cases h
  have hkw : nm ∈ kwArgNames call := by
    apply List.mem_filterMap.mpr
    exact ⟨Arg.kw nm, hc, rfl⟩
  have hmem : BindDiag.posOnlyPassedByKeyword nm ∈ (kwFoldResult sig call).2 :=
    kwFold_posOnly_flag sig nm hkb hpo (kwArgNames call) _ hkw
  unfold bindCheck
  exact List.mem_append.mpr (Or.inl (List.mem_append.mpr (Or.inr hmem)))

/-- Witness for C4 at `j(x=1, y=2)` against `def j(x, y, /)`
(ols01007.py line 75). -/
theorem posonly_param_by_keyword_distinct_witness :
    Arg.kw "x" ∈ [Arg.kw "x", Arg.kw "y"] ∧
    BindDiag.posOnlyPassedByKeyword "x" ∈ bindCheck sigJ [Arg.kw "x", Arg.kw "y"] :=
  ⟨by decide,
   (posonly_param_by_keyword_distinct sigJ [Arg.kw "x", Arg.kw "y"] "x"
     (by decide) (by decide) (by decide)).1⟩

/-- C8: the positional-after-keyword check is syntax-level and independent of
signature binding: whenever it fires it is emitted, every signature-binding
diagnostic is still reported alongside it, and in particular the call
`q(a=1, b=2, 3)` against `def q(a, b, *, x, y=10)` carries both the
positional-after-keyword diagnostic and a binding diagnostic. -/
theorem pos_after_keyword_nonblocking :
    (∀ (sig : List Param) (call : List Arg), hasPosAfterKeyword call = true →
        BindDiag.posAfterKeyword ∈ fullCheck sig call ∧
        ∀ d0 ∈ bindCheck sig call, d0 ∈ fullCheck sig call) ∧
    (BindDiag.posAfterKeyword ∈ fullCheck sigQ [Arg.kw "a", Arg.kw "b", Arg.pos] ∧
     BindDiag.missingRequired "x" ∈ fullCheck sigQ [Arg.kw "a", Arg.kw "b", Arg.pos]) := by
  constructor
  · intro sig call h
    constructor
    · unfold fullCheck
      rw [if_pos h]
      simp
    · intro d0 hd0
      unfold fullCheck
      exact List.mem_append.mpr (Or.inr hd0)
  · exact ⟨by decide, by decide⟩

/-- Witness for C8 at the concrete call `q(a=1, b=2, 3)`
(ols01007.py line 143). -/
theorem pos_after_keyword_nonblocking_witness :
    hasPosAfterKeyword [Arg.kw "a", Arg.kw "b", Arg.pos] = true ∧
    BindDiag.posAfterKeyword ∈ fullCheck sigQ [Arg.kw "a", Arg.kw "b", Arg.pos] :=
  ⟨by decide,
   (pos_after_keyword_nonblocking.1 sigQ [Arg.kw "a", Arg.kw "b", Arg.pos]
     (by decide)).1⟩

/-! ## Entity/field data model shared by the domain analyzers (spec §3, §4.5)

Modelled from the spec: the merged-entity registry and field metadata live in
the analyzer core outside `src/`; the shapes below are translated from the
declarations in `src/server/tests/data/addons/module_1/models/diagnostics.py`
and `src/server/tests/data/addons/module_2/models/base_test_models.py`. -/

inductive FType where
  | integer
  | char
  | float
  | boolean
  | date
  | datetime
  | many2one (comodel : String)
  | one2many (comodel : String)
  | many2many (comodel : String)
deriving DecidableEq, Repr

def comodelOf : FType → Option String
  | .many2one c => some c
  | .one2many c => some c
  | .many2many c => some c
  | _ => none

def FType.isTemporal : FType → Bool
  | .date => true
  | .datetime => true
  | _ => false

structure FieldDef where
  fname : String
  ftype : FType
  relInverse : Option String := none
  related : Option String := none
  computeM : Option String := none
  searchM : Option String := none
  inverseM : Option String := none
deriving DecidableEq, Repr

structure ModelDef where
  name : String
  fields : List FieldDef
  methods : List String
deriving DecidableEq, Repr

def Registry := List ModelDef

def findModel (reg : Registry) (n : String) : Option ModelDef :=
  List.find? (fun m => m.name == n) reg

def findModelField (reg : Registry) (model fieldName : String) : Option FieldDef :=
  (findModel reg model).bind fun m => m.fields.find? fun fd => fd.fname == fieldName

/-- Splitting a dotted field path into segments
(the analyzers receive paths as dot-separated strings). -/
def splitDotsAux : List Char → List Char → List String
  | [], acc => [String.mk acc.reverse]
  | c :: cs, acc =>
    if c = '.' then String.mk acc.reverse :: splitDotsAux cs []
    else splitDotsAux cs (c :: acc)

def splitDots (s : String) : List String := splitDotsAux s.data []

/-- The merged entity `pygls.tests.base_test_model`.  Its base declaration is
outside `src/`; `test_int` and `diag_id` are contributed by
`module_2/models/base_test_models.py`, and `diagnostics_id` / `partner_id` are
modelled from the spec (§3 MergedEntity) and their accepted uses in
`module_1/models/diagnostics.py` (valid inverse name, valid search path). -/
def baseTestModel : ModelDef :=
  { name := "pygls.tests.base_test_model"
    fields := [
      { fname := "test_int", ftype := FType.integer, computeM := some "_compute_something" },
      { fname := "diag_id", ftype := FType.many2one "module_1.diagnostics_model" },
      { fname := "diagnostics_id", ftype := FType.many2one "module_1.diagnostics_model" },
      { fname := "partner_id", ftype := FType.many2one "res.partner" } ]
    methods := ["_compute_something"] }

/-- The entity `module_1.diagnostics_model`, translated from
`module_1/models/diagnostics.py` (fields and methods used by the analyzers). -/
def diagnosticsModel : ModelDef :=
  { name := "module_1.diagnostics_model"
    fields := [
      { fname := "int_field", ftype := FType.integer },
      { fname := "test_models", ftype := FType.one2many "pygls.tests.base_test_model",
        relInverse := some "diagnostics_id" },
      { fname := "test_related", ftype := FType.integer,
        related := some "test_models.test_int" },
      { fname := "test_related_wrong", ftype := FType.integer,
        related := some "test_models.diagnostics_id" },
      { fname := "date", ftype := FType.date },
      { fname := "to_compute", ftype := FType.integer, computeM := some "_compute_field" } ]
    methods := ["a_method", "test_search_domain", "_compute_field",
                "_search_1", "_compute_1", "_inverse_1"] }

def module2CustomModel : ModelDef :=
  { name := "module_2.custom_model"
    fields := [{ fname := "diag_id", ftype := FType.many2one "module_1.diagnostics_model" }]
    methods := [] }

def testRegistry : Registry :=
  [diagnosticsModel, baseTestModel, module2CustomModel]

def m1 : String := "module_1.diagnostics_model"

/-! ## Structured-query-expression analyzer (spec §4.5)

Modelled from the spec: the structured-query-expression analyzer is outside
`src/`; the rules below follow §4.5, with the accepted operator set and the
exact tuple-length / arity / spelling behaviour translated from the
expected-diagnostic annotations of `test_search_domain` in
`module_1/models/diagnostics.py` (lines 43-92). -/

/-- Virtual calendar-decomposition sub-attributes of temporal fields
(diagnostics.py lines 79-88 accepted rows). -/
def temporalSubAttrs : List String :=
  ["year_number", "quarter_number", "month_number", "iso_week_number",
   "day_of_week", "day_of_month", "day_of_year", "hour_number",
   "minute_number", "second_number"]

/-- Operator whitelist for binary conditions
(diagnostics.py lines 45-58 accepted rows; `lt` is rejected, line 70). -/
def validOperators : List String :=
  ["=", "!=", ">", "<", ">=", "<=", "like", "ilike", "in", "not in",
   "child_of", "parent_of", "any", "not any"]

inductive DomDiag where
  | badTupleLength (len : Nat)
  | invalidOperatorSpelling (w : String)
  | invalidOperator (op : String)
  | missingOperand
  | memberNotFound (seg : String)
  | unknownDateGranularity (attr : String)
  | attrOnNonRelational (seg : String)
deriving DecidableEq, Repr

/-- Resolve a dot-separated field path against the registry: every segment must
be a member of the previous segment's resolved entity; a terminal temporal
field exposes exactly the calendar-decomposition whitelist as one trailing
attribute; a trailing attribute on a non-relational, non-temporal field is
flagged. -/
def checkFieldPath (reg : Registry) : String → List String → List DomDiag
  | _, [] => []
  | model, [seg] =>
    match findModelField reg model seg with
    | some _ => []
    | none => [DomDiag.memberNotFound seg]
  | model, seg :: rest =>
    match findModelField reg model seg with
    | none => [DomDiag.memberNotFound seg]
    | some fd =>
      match comodelOf fd.ftype with
      | some cm => checkFieldPath reg cm rest
      | none =>
        if fd.ftype.isTemporal then
          match rest with
          | [attr] =>
            if attr ∈ temporalSubAttrs then []
            else [DomDiag.unknownDateGranularity attr]
          | _ => [DomDiag.unknownDateGranularity (String.intercalate "." rest)]
        else [DomDiag.attrOnNonRelational seg]

/-- A value inside a condition tuple (only its shape matters to the checks). -/
inductive DVal where
  | s (v : String)
  | i (v : Int)
  | lst
deriving DecidableEq, Repr

inductive DomainItem where
  | tup (elems : List DVal)
  | word (w : String)
deriving DecidableEq, Repr

/-- Check one condition tuple: exactly three elements
(one- , two- and four-element tuples are all flagged, diagnostics.py
lines 62-64), then the operator whitelist and the field path. -/
def checkTuple (reg : Registry) (model : String) (elems : List DVal) : List DomDiag :=
  if elems.length = 3 then
    match elems with
    | [DVal.s fieldPath, DVal.s op, _] =>
      (if op ∈ validOperators then [] else [DomDiag.invalidOperator op]) ++
        checkFieldPath reg model (splitDots fieldPath)
    | _ => []
  else [DomDiag.badTupleLength elems.length]

def opArity (w : String) : Option Nat :=
  if w = "&" ∨ w = "|" then some 2 else if w = "!" then some 1 else none

/-- `or` and `not` are invalid alternative spellings of `|` and `!`
(diagnostics.py lines 68-69). -/
def altSpelling (w : String) : Option String :=
  if w = "or" then some "|" else if w = "not" then some "!" else none

/-- One domain element: the first component of the state is the number of
operands still owed to earlier logical operators (a leaf consumes one, an
operator of arity `ar` consumes one and owes `ar`). -/
def domainStep (reg : Registry) (model : String) (st : Nat × List DomDiag)
    (it : DomainItem) : Nat × List DomDiag :=
  match it with
  | .tup es => (st.1 - 1, st.2 ++ checkTuple reg model es)
  | .word w =>
    match altSpelling w with
    | some w' =>
      match opArity w' with
      | some ar => (st.1 - 1 + ar, st.2 ++ [DomDiag.invalidOperatorSpelling w])
      | none => (st.1 - 1, st.2 ++ [DomDiag.invalidOperatorSpelling w])
    | none =>
      match opArity w with
      | some ar => (st.1 - 1 + ar, st.2)
      | none => (st.1 - 1, st.2 ++ [DomDiag.invalidOperator w])

/-- Check a whole structured-query expression; an operand debt left at the end
is an arity shortfall. -/
def checkDomain (reg : Registry) (model : String) (l : List DomainItem) : List DomDiag :=
  (l.foldl (domainStep reg model) (0, [])).2 ++
    (if (l.foldl (domainStep reg model) (0, [])).1 > 0 then [DomDiag.missingOperand]
     else [])

/-- `("int_field", "=", n)` — the representative condition of the test data. -/
def condI (n : Int) : DomainItem :=
  DomainItem.tup [DVal.s "int_field", DVal.s "=", DVal.i n]

/-- C2: a condition tuple whose element count is neither 2 nor 3 is flagged;
binary logical operators with one operand and the unary operator with none are
flagged as arity shortfalls; bare-word `or` / `not` are flagged as invalid
alternative spellings and not as arity errors. -/
theorem domain_tuple_arity_and_spelling :
    (∀ (model : String) (elems : List DVal), elems.length ≠ 2 → elems.length ≠ 3 →
        DomDiag.badTupleLength elems.length ∈ checkTuple testRegistry model elems) ∧
    (∀ w, w = "&" ∨ w = "|" →
        DomDiag.missingOperand ∈
          checkDomain testRegistry m1 [DomainItem.word w, condI 0]) ∧
    DomDiag.missingOperand ∈ checkDomain testRegistry m1 [DomainItem.word "!"] ∧
    (DomDiag.invalidOperatorSpelling "or" ∈
        checkDomain testRegistry m1 [DomainItem.word "or", condI 0, condI 1] ∧
      DomDiag.missingOperand ∉
        checkDomain testRegistry m1 [DomainItem.word "or", condI 0, condI 1]) ∧
    (DomDiag.invalidOperatorSpelling "not" ∈
        checkDomain testRegistry m1 [DomainItem.word "not", condI 0] ∧
      DomDiag.missingOperand ∉
        checkDomain testRegistry m1 [DomainItem.word "not", condI 0]) := by
  refine ⟨?_, ?_, by decide, ⟨by decide, by decide⟩, ⟨by decide, by decide⟩⟩
  · intro model elems _ h3
    unfold checkTuple
    rw [if_neg h3]
    simp
  · intro w hw
    rcases hw with hw | hw <;> subst hw <;> decide

/-- Witness for C2 at the one-element tuple `("int_field",)`
(diagnostics.py line 62) and the one-operand `["|", ("int_field","=",0)]`
(diagnostics.py line 71). -/
theorem domain_tuple_arity_and_spelling_witness :
    DomDiag.badTupleLength 1 ∈ checkTuple testRegistry m1 [DVal.s "int_field"] ∧
    DomDiag.missingOperand ∈
      checkDomain testRegistry m1 [DomainItem.word "|", condI 0] :=
  ⟨domain_tuple_arity_and_spelling.1 m1 [DVal.s "int_field"] (by decide) (by decide),
   domain_tuple_arity_and_spelling.2.1 "|" (Or.inr rfl)⟩

/-- C5: a binary condition on a resolvable field is accepted exactly when its
operator is in the fixed whitelist; the alternative ordering spelling `lt` is
outside the whitelist and flagged. -/
theorem domain_operator_whitelist :
    (∀ (op : String) (v : DVal),
        checkTuple testRegistry m1 [DVal.s "int_field", DVal.s op, v] = [] ↔
          op ∈ validOperators) ∧
    "lt" ∉ validOperators ∧
    DomDiag.invalidOperator "lt" ∈
      checkDomain testRegistry m1
        [DomainItem.tup [DVal.s "int_field", DVal.s "lt", DVal.i 0]] := by
  refine ⟨?_, by decide, by decide⟩
  intro op v
  have hpath : checkFieldPath testRegistry m1 (splitDots "int_field") = [] := by decide
  unfold checkTuple
  rw [if_pos (by simp)]
  show ((if op ∈ validOperators then ([] : List DomDiag)
          else [DomDiag.invalidOperator op]) ++
        checkFieldPath testRegistry m1 (splitDots "int_field")) = [] ↔
      op ∈ validOperators
  rw [hpath]
  by_cases hop : op ∈ validOperators <;> simp [hop]

/-- Witness for C5 at `("int_field", "=", 0)` (diagnostics.py line 45). -/
theorem domain_operator_whitelist_witness :
    checkTuple testRegistry m1 [DVal.s "int_field", DVal.s "=", DVal.i 0] = [] :=
  (domain_operator_whitelist.1 "=" (DVal.i 0)).mpr (by decide)

/-- C6: on the temporal field `date`, exactly the calendar-decomposition
whitelist is accepted as a trailing attribute; any other trailing attribute —
`millisecond_number` in particular — is flagged as an unknown granularity. -/
theorem temporal_subattr_whitelist :
    (∀ attr : String,
        checkFieldPath testRegistry m1 ["date", attr] = [] ↔
          attr ∈ temporalSubAttrs) ∧
    (∀ attr : String, attr ∉ temporalSubAttrs →
        DomDiag.unknownDateGranularity attr ∈
          checkFieldPath testRegistry m1 ["date", attr]) ∧
    "millisecond_number" ∉ temporalSubAttrs ∧
    DomDiag.unknownDateGranularity "millisecond_number" ∈
      checkDomain testRegistry m1
        [DomainItem.tup [DVal.s "date.millisecond_number", DVal.s "=", DVal.i 0]] := by
  have hred : ∀ attr : String,
      checkFieldPath testRegistry m1 ["date", attr] =
        if attr ∈ temporalSubAttrs then [] else [DomDiag.unknownDateGranularity attr] := by
    intro attr
    rfl
  refine ⟨?_, ?_, by decide, by decide⟩
  · intro attr
    rw [hred]
    by_cases h : attr ∈ temporalSubAttrs <;> simp [h]
  · intro attr h
    rw [hred, if_neg h]
    simp

/-- Witness for C6 at `date.millisecond_number` (diagnostics.py line 89). -/
theorem temporal_subattr_whitelist_witness :
    "millisecond_number" ∉ temporalSubAttrs ∧
    DomDiag.unknownDateGranularity "millisecond_number" ∈
      checkFieldPath testRegistry m1 ["date", "millisecond_number"] :=
  ⟨by decide, temporal_subattr_whitelist.2.1 "millisecond_number" (by decide)⟩

/-- Full evaluation of the domain analyzer on the flagged rows of
`test_search_domain` (diagnostics.py lines 62-92): the model reproduces every
expected diagnostic annotation exactly. -/
theorem domain_analyzer_flagged_rows :
    checkDomain testRegistry m1 [DomainItem.tup [DVal.s "int_field"]] =
      [DomDiag.badTupleLength 1] ∧
    checkDomain testRegistry m1 [DomainItem.tup [DVal.s "int_field", DVal.s "="]] =
      [DomDiag.badTupleLength 2] ∧
    checkDomain testRegistry m1
      [DomainItem.tup [DVal.s "|", DVal.s "int_field", DVal.s "=", DVal.i 0]] =
      [DomDiag.badTupleLength 4] ∧
    checkDomain testRegistry m1 [DomainItem.word "or", condI 0, condI 1] =
      [DomDiag.invalidOperatorSpelling "or"] ∧
    checkDomain testRegistry m1 [DomainItem.word "not", condI 0] =
      [DomDiag.invalidOperatorSpelling "not"] ∧
    checkDomain testRegistry m1
      [DomainItem.tup [DVal.s "int_field", DVal.s "lt", DVal.i 0]] =
      [DomDiag.invalidOperator "lt"] ∧
    checkDomain testRegistry m1 [DomainItem.word "|", condI 0] = [DomDiag.missingOperand] ∧
    checkDomain testRegistry m1 [DomainItem.word "&", condI 0] = [DomDiag.missingOperand] ∧
    checkDomain testRegistry m1 [DomainItem.word "!"] = [DomDiag.missingOperand] ∧
    checkDomain testRegistry m1
      [DomainItem.tup [DVal.s "wrong_field", DVal.s "=", DVal.i 0]] =
      [DomDiag.memberNotFound "wrong_field"] ∧
    checkDomain testRegistry m1
      [DomainItem.tup [DVal.s "test_models.wrong_field", DVal.s "=", DVal.i 0]] =
      [DomDiag.memberNotFound "wrong_field"] ∧
    checkDomain testRegistry m1
      [DomainItem.tup [DVal.s "date.millisecond_number", DVal.s "=", DVal.i 0]] =
      [DomDiag.unknownDateGranularity "millisecond_number"] ∧
    checkDomain testRegistry m1
      [DomainItem.tup [DVal.s "int_field.wrong_attr", DVal.s "=", DVal.i 0]] =
      [DomDiag.attrOnNonRelational "int_field"] ∧
    checkDomain testRegistry m1
      [DomainItem.tup [DVal.s "test_models.wrong_attr", DVal.s "=", DVal.i 0]] =
      [DomDiag.memberNotFound "wrong_attr"] := by
  decide

/-- Full evaluation of the domain analyzer on the accepted rows of
`test_search_domain` (diagnostics.py lines 45-88): no diagnostics. -/
theorem domain_analyzer_accepted_rows :
    (∀ op ∈ ["=", "!=", ">", "<", ">=", "<=", "like", "ilike"],
        checkDomain testRegistry m1
          [DomainItem.tup [DVal.s "int_field", DVal.s op, DVal.i 0]] = []) ∧
    (∀ op ∈ ["in", "not in"],
        checkDomain testRegistry m1
          [DomainItem.tup [DVal.s "int_field", DVal.s op, DVal.lst]] = []) ∧
    (∀ op ∈ ["child_of", "parent_of"],
        checkDomain testRegistry m1
          [DomainItem.tup [DVal.s "test_models", DVal.s op, DVal.i 0]] = []) ∧
    (∀ op ∈ ["any", "not any"],
        checkDomain testRegistry m1
          [DomainItem.tup [DVal.s "test_models", DVal.s op, DVal.lst]] = []) ∧
    checkDomain testRegistry m1 [] = [] ∧
    checkDomain testRegistry m1 [DomainItem.word "|", condI 0, condI 1] = [] ∧
    checkDomain testRegistry m1 [DomainItem.word "&", condI 0, condI 1] = [] ∧
    checkDomain testRegistry m1 [DomainItem.word "!", condI 0] = [] ∧
    checkDomain testRegistry m1 [DomainItem.word "!", condI 0, condI 0] = [] ∧
    checkDomain testRegistry m1
      [DomainItem.tup [DVal.s "test_models.partner_id", DVal.s "=", DVal.i 0]] = [] ∧
    (∀ attr ∈ temporalSubAttrs,
        checkDomain testRegistry m1
          [DomainItem.tup [DVal.s ("date." ++ attr), DVal.s "=", DVal.i 0]] = []) := by
  decide

/-! ## Entity-registry duplicate-registration analyzer (spec §4.5)

Modelled from the spec: the entity-registry analyzer is outside `src/`; two
unrelated declarations registering the same logical name are a
duplicate-registration conflict.  The expected-diagnostic annotations of
`module_1/models/diagnostics.py` (lines 113-119) place the duplicate
diagnostic `OLS03020` on BOTH declarations' `_name` lines, so the analyzer is
modelled as flagging every declaration of a duplicated name, not only the
second. -/

structure ClassDecl where
  className : String
  regName : Option String := none
  inheritName : Option String := none
  line : Nat
deriving DecidableEq, Repr

/-- The class declarations of `module_1/models/diagnostics.py`, with the line
of each `_name` registration. -/
def module1Decls : List ClassDecl :=
  [{ className := "ModelWithDiagnostics",
     regName := some "module_1.diagnostics_model",
     inheritName := some "module_2.empty_model", line := 5 },
   { className := "SameNameModel",
     regName := some "module_1.same_name_model", line := 114 },
   { className := "SameNameModel2",
     regName := some "module_1.same_name_model", line := 118 }]

/-- The expected-diagnostic annotations of
`module_1/models/diagnostics.py` — (line, diagnostic code), translated verbatim
from the `# OLSxxxxx` comments. -/
def diagnosticsPyAnnotations : List (Nat × String) :=
  [(2, "OLS03003"), (6, "OLS03004"),
   (11, "OLS03015"), (11, "OLS03021"), (12, "OLS03015"), (12, "OLS03021"),
   (13, "OLS03016"), (14, "OLS03016"), (16, "OLS03017"),
   (18, "OLS03021"), (19, "OLS03022"), (20, "OLS03021"), (21, "OLS03022"),
   (23, "OLS03023"), (27, "OLS03018"), (29, "OLS03018"), (31, "OLS03018"),
   (38, "OLS03001"), (39, "OLS03002"), (40, "OLS03005"),
   (43, "OLS03006"), (44, "OLS03006"),
   (62, "OLS03007"), (63, "OLS03007"), (64, "OLS03007"),
   (68, "OLS03008"), (69, "OLS03008"), (70, "OLS03009"),
   (71, "OLS03010"), (72, "OLS03010"), (73, "OLS03010"),
   (75, "OLS03011"), (77, "OLS03011"), (89, "OLS03012"),
   (91, "OLS03013"), (92, "OLS03011"),
   (95, "OLS03014"), (97, "OLS03014"), (99, "OLS03014"),
   (108, "OLS03019"), (114, "OLS03020"), (118, "OLS03020")]

/-- C3 counterexample: the source expects TWO duplicate-registration
diagnostics (`OLS03020`), one of which sits on the FIRST declaration
(`SameNameModel`, line 114) — refuting "exactly one diagnostic, placed on the
second declaration, the first declaration is not flagged". -/
theorem duplicate_registration_counterexample :
    ((diagnosticsPyAnnotations.filter fun a => a.2 == "OLS03020").map Prod.fst) =
      [114, 118] ∧
    (114, "OLS03020") ∈ diagnosticsPyAnnotations ∧
    (∀ c ∈ module1Decls, c.regName = some "module_1.same_name_model" → 114 ≤ c.line) := by
  decide

/-- Lines flagged by the duplicate-registration analyzer: every declaration
whose registered name is also registered by another, unrelated declaration
(neither declaring an extension relationship to that name). -/
def dupRegFlaggedLines (ds : List ClassDecl) : List Nat :=
  (ds.filter fun c =>
    match c.regName with
    | some n =>
      decide (c.inheritName ≠ some n) &&
        ds.any fun d => d.line != c.line && d.regName == some n &&
          d.inheritName != some n
    | none => false).map ClassDecl.line

theorem dupReg_flags_decl (ds : List ClassDecl) (c d : ClassDecl) (n : String)
    (hc : c ∈ ds) (hd : d ∈ ds) (hne : c.line ≠ d.line)
    (hcn : c.regName = some n) (hdn : d.regName = some n)
    (hci : c.inheritName ≠ some n) (hdi : d.inheritName ≠ some n) :
    c.line ∈ dupRegFlaggedLines ds := by
  apply List.mem_map.mpr
  refine ⟨c, List.mem_filter.mpr ⟨hc, ?_⟩, rfl⟩
  rw [hcn]
  simp only [Bool.and_eq_true, decide_eq_true_eq, List.any_eq_true]
  exact ⟨hci, d, hd, by simp [bne_iff_ne, Ne.symm hne, hdn, hdi]⟩

/-- C3 amended: when two unrelated declarations register the same logical name,
the analyzer flags BOTH declarations; on the source data the flagged lines are
exactly 114 and 118 (both `SameNameModel` declarations), matching the
annotations. -/
theorem duplicate_registration_both_flagged :
    (∀ (ds : List ClassDecl) (c d : ClassDecl) (n : String),
        c ∈ ds → d ∈ ds → c.line ≠ d.line →
        c.regName = some n → d.regName = some n →
        c.inheritName ≠ some n → d.inheritName ≠ some n →
        c.line ∈ dupRegFlaggedLines ds ∧ d.line ∈ dupRegFlaggedLines ds) ∧
    dupRegFlaggedLines module1Decls = [114, 118] ∧
    dupRegFlaggedLines module1Decls =
      ((diagnosticsPyAnnotations.filter fun a => a.2 == "OLS03020").map Prod.fst) := by
  refine ⟨?_, by decide, by decide⟩
  intro ds c d n hc hd hne hcn hdn hci hdi
  exact ⟨dupReg_flags_decl ds c d n hc hd hne hcn hdn hci hdi,
         dupReg_flags_decl ds d c n hd hc (Ne.symm hne) hdn hcn hdi hci⟩

/-- Witness for the amended C3 at the two `SameNameModel` declarations
(diagnostics.py lines 113-119). -/
theorem duplicate_registration_both_flagged_witness :
    114 ∈ dupRegFlaggedLines module1Decls ∧ 118 ∈ dupRegFlaggedLines module1Decls :=
  duplicate_registration_both_flagged.1 module1Decls
    { className := "SameNameModel", regName := some "module_1.same_name_model", line := 114 }
    { className := "SameNameModel2", regName := some "module_1.same_name_model", line := 118 }
    "module_1.same_name_model" (by decide) (by decide) (by decide)
    rfl rfl (by decide) (by decide)

/-! ## Field cross-reference analyzer (spec §4.5)

Modelled from the spec: the field cross-reference analyzer is outside `src/`;
per §4.5 a declared relational inverse member name must resolve on the target
entity, a related dotted path must resolve on the owning entity (and its
terminal type must be consistent with the declaring field's value type), and
named compute/search/inverse accessor methods must resolve on the owning
entity; each unresolved name gets a per-reference-kind diagnostic.  Behaviour
evidenced by diagnostics.py lines 15-31. -/

inductive XrefDiag where
  | inverseFieldNotFound (n : String)
  | relatedPathNotFound (p : String)
  | accessorNotFound (n : String)
  | relatedTypeMismatch (p : String)
deriving DecidableEq, Repr

/-- Resolve a related dotted path to the type of its terminal field. -/
def resolveRelated (reg : Registry) : String → List String → Option FType
  | _, [] => none
  | model, [seg] => (findModelField reg model seg).map FieldDef.ftype
  | model, seg :: rest =>
    match findModelField reg model seg with
    | none => none
    | some fd =>
      match comodelOf fd.ftype with
      | some cm => resolveRelated reg cm rest
      | none => none

def FType.kindName : FType → String
  | .integer => "integer"
  | .char => "char"
  | .float => "float"
  | .boolean => "boolean"
  | .date => "date"
  | .datetime => "datetime"
  | .many2one _ => "many2one"
  | .one2many _ => "one2many"
  | .many2many _ => "many2many"

/-- Value-type consistency between a declared field and a resolved terminal
field: same field-type family. -/
def sameTypeFamily (a b : FType) : Bool :=
  a.kindName == b.kindName

def inverseDiags (reg : Registry) (fd : FieldDef) : List XrefDiag :=
  match fd.relInverse with
  | none => []
  | some inv =>
    match comodelOf fd.ftype with
    | none => []
    | some cm =>
      match findModel reg cm with
      | none => []
      | some _ =>
        if (findModelField reg cm inv).isSome then []
        else [XrefDiag.inverseFieldNotFound inv]

def relatedDiags (reg : Registry) (ownerName : String) (fd : FieldDef) : List XrefDiag :=
  match fd.related with
  | none => []
  | some p =>
    match resolveRelated reg ownerName (splitDots p) with
    | none => [XrefDiag.relatedPathNotFound p]
    | some t =>
      if sameTypeFamily t fd.ftype then [] else [XrefDiag.relatedTypeMismatch p]

def accessorDiags (owner : ModelDef) (fd : FieldDef) : List XrefDiag :=
  ([fd.computeM, fd.searchM, fd.inverseM].filterMap id).filterMap fun nm =>
    if nm ∈ owner.methods then none else some (XrefDiag.accessorNotFound nm)

def checkFieldXref (reg : Registry) (owner : ModelDef) (fd : FieldDef) : List XrefDiag :=
  inverseDiags reg fd ++ relatedDiags reg owner.name fd ++ accessorDiags owner fd

theorem accessorDiags_flags (owner : ModelDef) (fd : FieldDef) (nm : String)
    (h : fd.computeM = some nm ∨ fd.searchM = some nm ∨ fd.inverseM = some nm)
    (hnm : nm ∉ owner.methods) :
    XrefDiag.accessorNotFound nm ∈ accessorDiags owner fd := by
  apply List.mem_filterMap.mpr
  refine ⟨nm, ?_, by rw [if_neg hnm]⟩
  apply List.mem_filterMap.mpr
  refine ⟨some nm, ?_, rfl⟩
  rcases h with h | h | h <;> rw [← h] <;> simp

/-- C7: the field cross-reference analyzer flags, with per-kind diagnostics,
an inverse member name that does not resolve on the target entity, a related
path that does not resolve on the owning entity, and an accessor method name
that does not resolve on the owning entity; a related path that resolves to a
terminal type inconsistent with the declared value type is flagged too. -/
theorem field_xref_per_kind (reg : Registry) (owner : ModelDef) (fd : FieldDef) :
    (∀ inv cm, fd.relInverse = some inv → comodelOf fd.ftype = some cm →
        (findModel reg cm).isSome → findModelField reg cm inv = none →
        XrefDiag.inverseFieldNotFound inv ∈ checkFieldXref reg owner fd) ∧
    (∀ p, fd.related = some p →
        resolveRelated reg owner.name (splitDots p) = none →
        XrefDiag.relatedPathNotFound p ∈ checkFieldXref reg owner fd) ∧
    (∀ p t, fd.related = some p →
        resolveRelated reg owner.name (splitDots p) = some t →
        sameTypeFamily t fd.ftype = false →
        XrefDiag.relatedTypeMismatch p ∈ checkFieldXref reg owner fd) ∧
    (∀ nm, (fd.computeM = some nm ∨ fd.searchM = some nm ∨ fd.inverseM = some nm) →
        nm ∉ owner.methods →
        XrefDiag.accessorNotFound nm ∈ checkFieldXref reg owner fd) := by
  refine ⟨?_, ?_, ?_, ?_⟩
  · intro inv cm hinv hcm hfm hnone
    have hmem : XrefDiag.inverseFieldNotFound inv ∈ inverseDiags reg fd := by
      obtain ⟨target, htarget⟩ := Option.isSome_iff_exists.mp hfm
      unfold inverseDiags
      simp [hinv, hcm, htarget, hnone]
    unfold checkFieldXref
    exact List.mem_append.mpr (Or.inl (List.mem_append.mpr (Or.inl hmem)))
  · intro p hp hnone
    have hmem : XrefDiag.relatedPathNotFound p ∈ relatedDiags reg owner.name fd := by
      unfold relatedDiags
      simp [hp, hnone]
    unfold checkFieldXref
    exact List.mem_append.mpr (Or.inl (List.mem_append.mpr (Or.inr hmem)))
  · intro p t hp hsome hmismatch
    have hmem : XrefDiag.relatedTypeMismatch p ∈ relatedDiags reg owner.name fd := by
      unfold relatedDiags
      simp [hp, hsome, hmismatch]
    unfold checkFieldXref
    exact List.mem_append.mpr (Or.inl (List.mem_append.mpr (Or.inr hmem)))
  · intro nm h hnm
    unfold checkFieldXref
    exact List.mem_append.mpr (Or.inr (accessorDiags_flags owner fd nm h hnm))

/-- `fields.One2many("pygls.tests.base_test_model", "test_int_vdsqcedfc")` —
diagnostics.py line 18. -/
def badInverseDecl : FieldDef :=
  { fname := "test_models", ftype := FType.one2many "pygls.tests.base_test_model",
    relInverse := some "test_int_vdsqcedfc" }

/-- `fields.Integer(related="test_models.diagnostics_id")` —
diagnostics.py line 16. -/
def relatedWrongDecl : FieldDef :=
  { fname := "test_related_wrong", ftype := FType.integer,
    related := some "test_models.diagnostics_id" }

/-- `fields.Integer(search="_search_2")` — diagnostics.py line 27. -/
def searchBadDecl : FieldDef :=
  { fname := "test_method_search_2", ftype := FType.integer,
    searchM := some "_search_2" }

/-- A relation declaration whose related path has no resolvable member. -/
def relatedMissingDecl : FieldDef :=
  { fname := "hypothetical", ftype := FType.integer,
    related := some "missing_member" }

/-- Witness for C7 at the flagged declarations of diagnostics.py. -/
theorem field_xref_per_kind_witness :
    XrefDiag.inverseFieldNotFound "test_int_vdsqcedfc" ∈
      checkFieldXref testRegistry diagnosticsModel badInverseDecl ∧
    XrefDiag.relatedTypeMismatch "test_models.diagnostics_id" ∈
      checkFieldXref testRegistry diagnosticsModel relatedWrongDecl ∧
    XrefDiag.accessorNotFound "_search_2" ∈
      checkFieldXref testRegistry diagnosticsModel searchBadDecl ∧
    XrefDiag.relatedPathNotFound "missing_member" ∈
      checkFieldXref testRegistry diagnosticsModel relatedMissingDecl :=
  ⟨(field_xref_per_kind testRegistry diagnosticsModel badInverseDecl).1
      "test_int_vdsqcedfc" "pygls.tests.base_test_model" rfl rfl (by decide) (by decide),
   (field_xref_per_kind testRegistry diagnosticsModel relatedWrongDecl).2.2.1
      "test_models.diagnostics_id" (FType.many2one "module_1.diagnostics_model")
      rfl (by decide) (by decide),
   (field_xref_per_kind testRegistry diagnosticsModel searchBadDecl).2.2.2
      "_search_2" (Or.inr (Or.inl rfl)) (by decide),
   (field_xref_per_kind testRegistry diagnosticsModel relatedMissingDecl).2.1
      "missing_member" rfl (by decide)⟩

/-- Full evaluation of the field cross-reference analyzer on the annotated and
the accepted field declarations of diagnostics.py: the model reproduces the
expected annotations (OLS03021 inverse-not-found, OLS03017 related type
mismatch, OLS03018 accessor-not-found) and accepts the clean rows. -/
theorem field_xref_matches_testdata :
    checkFieldXref testRegistry diagnosticsModel badInverseDecl =
      [XrefDiag.inverseFieldNotFound "test_int_vdsqcedfc"] ∧
    checkFieldXref testRegistry diagnosticsModel relatedWrongDecl =
      [XrefDiag.relatedTypeMismatch "test_models.diagnostics_id"] ∧
    checkFieldXref testRegistry diagnosticsModel searchBadDecl =
      [XrefDiag.accessorNotFound "_search_2"] ∧
    checkFieldXref testRegistry diagnosticsModel
      { fname := "test_method_search_4", ftype := FType.integer,
        computeM := some "_compute_2" } =
      [XrefDiag.accessorNotFound "_compute_2"] ∧
    checkFieldXref testRegistry diagnosticsModel
      { fname := "test_method_search_6", ftype := FType.integer,
        inverseM := some "_inverse_2" } =
      [XrefDiag.accessorNotFound "_inverse_2"] ∧
    checkFieldXref testRegistry diagnosticsModel
      { fname := "test_related", ftype := FType.integer,
        related := some "test_models.test_int" } = [] ∧
    checkFieldXref testRegistry diagnosticsModel
      { fname := "test_models", ftype := FType.one2many "pygls.tests.base_test_model",
        relInverse := some "diagnostics_id" } = [] ∧
    checkFieldXref testRegistry diagnosticsModel
      { fname := "test_method_search_1", ftype := FType.integer,
        searchM := some "_search_1" } = [] ∧
    checkFieldXref testRegistry diagnosticsModel
      { fname := "test_method_search_3", ftype := FType.integer,
        computeM := some "_compute_1" } = [] ∧
    checkFieldXref testRegistry diagnosticsModel
      { fname := "test_method_search_5", ftype := FType.integer,
        inverseM := some "_inverse_1" } = [] := by
  decide

/-! ## Hover feature (`src/server/features/hover.py`)

Embedding of `HoverFeature.build_markdown_description`.  The symbol-resolution
primitives `next_ref` / `follow_ref` and the path-to-URI conversion live in the
core outside `src/`; they are abstracted as an oracle (`Resolution`), and the
function body is translated line by line.  `follow_ref(..., stop_on_type=True)[0]`
is modelled by `Resolution.followRef`; a `None` oracle answer models a falsy
`type_ref`. -/

inductive SymType where
  | moduleT
  | packageT
  | classT
  | functionT
  | variableT
  | importT
  | constantT
deriving DecidableEq, Repr

/-- `str(symbol.type).lower()`. -/
def SymType.toDisplay : SymType → String
  | .moduleT => "module"
  | .packageT => "package"
  | .classT => "class"
  | .functionT => "function"
  | .variableT => "variable"
  | .importT => "import"
  | .constantT => "constant"

structure Sym where
  name : String
  stype : SymType
  isProp : Bool
  astArgs : Option (List String)
  doc : Option String
  evalPresent : Bool
  evalInstance : Bool
  isImportSym : Bool
  paths : List String
  startLine : Nat
deriving DecidableEq, Repr

/-- Resolution oracle standing for the core's reference-following primitives. -/
structure Resolution where
  nextRef : Sym → Option Sym
  followRef : Sym → Sym
  pathToUri : String → String

/-- hover.py lines 46-54: the inferred type defaults to `"Any"`, is the name of
`next_ref`'s answer when that answer exists and differs from the symbol, and is
overridden by the effective symbol's followed type when the value was produced
through a `__get__` factory. -/
def inferedType (env : Resolution) (symbol : Sym) (effectiveSym : Option Sym)
    (factory : Bool) : String :=
  let base :=
    match env.nextRef symbol with
    | none => "Any"
    | some tr => if tr = symbol then "Any" else tr.name
  match factory, effectiveSym with
  | true, some es => (env.followRef es).name
  | _, _ => base

/-- hover.py lines 55-62: display kind, with the type-alias and
property/method overrides. -/
def symTypeDisplay (symbol : Sym) : String :=
  let t0 := symbol.stype.toDisplay
  let t1 :=
    if symbol.evalPresent ∧ ¬ symbol.evalInstance ∧ ¬ symbol.isImportSym then "type alias"
    else t0
  if symbol.stype = SymType.functionT then
    (if symbol.isProp then "property" else "method")
  else t1

/-- hover.py lines 27-44 (`build_block_1`). -/
def buildBlock1 (symbol : Sym) (ty infered : String) : String :=
  "```python  \n" ++ "(" ++ ty ++ ") " ++
  (if symbol.stype = SymType.functionT ∧ ¬ symbol.isProp then "def " else "") ++
  symbol.name ++
  (match symbol.astArgs with
   | some args =>
     if symbol.stype = SymType.functionT ∧ ¬ symbol.isProp then
       "(  \n" ++ String.intercalate ",  \n" args ++ "  \n)"
     else ""
   | none => "") ++
  (if infered ≠ "" ∧ ty ≠ "module" then
     (if symbol.stype = SymType.functionT ∧ ¬ symbol.isProp then " -> " ++ infered
      else if symbol.name ≠ infered ∧ symbol.stype ≠ SymType.classT then
        (if ty = "type alias" then ": type[" ++ infered ++ "]" else ": " ++ infered)
      else "")
   else "") ++
  "  \n```"

/-- hover.py lines 67-73: the "See also" block built from the type reference's
paths. -/
def seeAlsoBlock (env : Resolution) (tr : Sym) : String :=
  match tr.paths with
  | [] => ""
  | p :: _ =>
    let uri0 := env.pathToUri p
    let uri := if tr.stype = SymType.packageT then uri0 ++ "/__init__.py" else uri0
    "  \n***  \n" ++ "See also: " ++ "[" ++ tr.name ++ "](" ++ uri ++ "#" ++
      toString tr.startLine ++ ")" ++ "  \n"

/-- hover.py lines 66-73: the source reads `type_ref.get_paths()`
unconditionally when the inferred type is neither `Any` nor `constant`; with a
falsy `type_ref` that line raises, modelled as `none`. -/
def seeAlsoPart (env : Resolution) (symbol : Sym) (effectiveSym : Option Sym)
    (factory : Bool) : Option String :=
  if inferedType env symbol effectiveSym factory ∉ (["Any", "constant"] : List String) then
    match env.nextRef symbol with
    | none => none
    | some tr => some (seeAlsoBlock env tr)
  else some ""

def docPart (symbol : Sym) : String :=
  match symbol.doc with
  | some d => "  \n***  \n" ++ d
  | none => ""

/-- hover.py lines 79-80. -/
def tomateMessage : String :=
  "Please rename your variable. Tomate is not a good name for a variable. You won't know what it means in 2 weeks (or even earlier)"

/-- `HoverFeature.build_markdown_description` (markdown value only; `none`
models the raised exception of the `See also` block on a falsy `type_ref`). -/
def buildMarkdownDescription (env : Resolution) (symbol : Sym)
    (effectiveSym : Option Sym) (factory : Bool) : Option String :=
  (seeAlsoPart env symbol effectiveSym factory).map fun s3 =>
    if symbol.name = "tomate" ∧ symbol.stype = SymType.variableT then tomateMessage
    else
      buildBlock1 symbol (symTypeDisplay symbol)
        (inferedType env symbol effectiveSym factory) ++ s3 ++ docPart symbol

/-- C9: when the reference chain cannot be followed (no next reference, or the
chain loops back to the symbol itself) and no accessor factory applies, the
inferred type degrades to `Any`; when resolution produced an effective symbol
through a `__get__` factory, the inferred type is the effective symbol's
followed type, substituted for the raw accessor symbol. -/
theorem hover_inferred_type_policy (env : Resolution) (symbol : Sym)
    (es : Option Sym) (factory : Bool) :
    (env.nextRef symbol = none → factory = false ∨ es = none →
        inferedType env symbol es factory = "Any") ∧
    (env.nextRef symbol = some symbol → factory = false ∨ es = none →
        inferedType env symbol es factory = "Any") ∧
    (∀ e, factory = true → es = some e →
        inferedType env symbol es factory = (env.followRef e).name) := by
  refine ⟨?_, ?_, ?_⟩
  · intro h1 h2
    rcases h2 with h | h
    · subst h
      cases es <;> simp [inferedType, h1]
    · subst h
      cases factory <;> simp [inferedType, h1]
  · intro h1 h2
    rcases h2 with h | h
    · subst h
      cases es <;> simp [inferedType, h1]
    · subst h
      cases factory <;> simp [inferedType, h1]
  · intro e hf he
    subst hf; subst he
    rfl

/-- A resolution oracle with an empty reference graph. -/
def trivialEnv : Resolution :=
  { nextRef := fun _ => none, followRef := fun s => s, pathToUri := fun p => p }

def sampleVarSym : Sym :=
  { name := "value", stype := SymType.variableT, isProp := false,
    astArgs := none, doc := none, evalPresent := false, evalInstance := false,
    isImportSym := false, paths := [], startLine := 1 }

/-- Witness for C9: a variable with no next reference and no factory gets
inferred type `Any`. -/
theorem hover_inferred_type_policy_witness :
    trivialEnv.nextRef sampleVarSym = none ∧
    inferedType trivialEnv sampleVarSym none false = "Any" :=
  ⟨rfl, (hover_inferred_type_policy trivialEnv sampleVarSym none false).1 rfl
    (Or.inl rfl)⟩

/-- C10: whenever `build_markdown_description` returns on a Variable symbol
named exactly `tomate`, the computed markdown is discarded and the fixed
admonition message is returned, whatever the oracle answers, the effective
symbol, the factory flag, the documentation or the position. -/
theorem hover_tomate_override (env : Resolution) (symbol : Sym)
    (es : Option Sym) (factory : Bool) (r : String)
    (hname : symbol.name = "tomate") (hkind : symbol.stype = SymType.variableT)
    (hres : buildMarkdownDescription env symbol es factory = some r) :
    r = tomateMessage := by
  unfold buildMarkdownDescription at hres
  obtain ⟨s3, _, heq⟩ := Option.map_eq_some'.mp hres
  rw [if_pos ⟨hname, hkind⟩] at heq
  exact heq.symm

def tomateSym : Sym :=
  { name := "tomate", stype := SymType.variableT, isProp := false,
    astArgs := none, doc := some "a doc", evalPresent := false,
    evalInstance := false, isImportSym := false, paths := [], startLine := 42 }

/-- Witness for C10 at a concrete `tomate` variable symbol. -/
theorem hover_tomate_override_witness :
    tomateSym.name = "tomate" ∧
    buildMarkdownDescription trivialEnv tomateSym none false = some tomateMessage := by
  refine ⟨rfl, ?_⟩
  obtain ⟨r, hr⟩ : ∃ r, buildMarkdownDescription trivialEnv tomateSym none false = some r :=
    ⟨_, rfl⟩
  rw [hr, hover_tomate_override trivialEnv tomateSym none false r rfl rfl hr]

end OdooLS
